import Mathlib

/-!
Verification of the cognitive-emotional state engine of the
Bio-Sensitive-Conversational-Agents repository
(`Interaction-Flow-Demo/v0-4/sketch.js` and the webcam panel in
`panels.js`).

The JavaScript source is shallowly embedded below.  Numbers that are
IEEE doubles in the source are modelled as rationals (`ℚ`); the decimal
literals of the source are written as exact rational constants.  The
mutable globals (`emotionBuffer`, `currentEmotion`, `emotionIntensity`,
`engagementScore`, `attentionScore`, `cognitiveLoad`) become explicit
state that is passed and returned.  Calls to `Math.random()`, `random()`
and `sin()` become extra parameters, constrained to the ranges the
library guarantees.  Rendering-only effects (canvas pulses, console
logging, wave-amplitude fields, panel redraw flags) have no observable
state in the claims and are omitted from the state record.
-/

namespace BioSim

/-- `const EMOTION_WINDOW_SIZE = 5000` (sketch.js line 79). -/
def EMOTION_WINDOW_SIZE : ℚ := 5000

/-- `const RECENCY_WEIGHT = 0.05` (sketch.js line 80). -/
def RECENCY_WEIGHT : ℚ := 1/20

/-- `let emotionStability = 0.7` (sketch.js line 59). -/
def emotionStability : ℚ := 7/10

/-- `let emotionTransitionThreshold = 0.8` (sketch.js line 60). -/
def emotionTransitionThreshold : ℚ := 4/5

/-- One element of the `emotionBuffer` array: the object literal pushed in
`addEmotionToBuffer` — `{emotion, confidence, timestamp}`. -/
structure EmotionEntry where
  emotion : String
  confidence : ℚ
  timestamp : ℚ
deriving DecidableEq

/-- JS `String.prototype.toLowerCase` on the ASCII emotion labels:
lowercase every character. -/
def lowerString (s : String) : String :=
  ⟨s.data.map Char.toLower⟩

/-- JS `emotionName.toLowerCase() === 'neutral'`. -/
def isNeutralName (name : String) : Bool :=
  lowerString name == "neutral"

/-- `cleanEmotionBuffer` (sketch.js lines 3515-3518):
`emotionBuffer = emotionBuffer.filter(entry => entry.timestamp >= cutoffTime)`
with `cutoffTime = currentTime - EMOTION_WINDOW_SIZE`. -/
def cleanEmotionBuffer (buffer : List EmotionEntry) (currentTime : ℚ) :
    List EmotionEntry :=
  buffer.filter (fun entry => currentTime - EMOTION_WINDOW_SIZE ≤ entry.timestamp)

/-- `addEmotionToBuffer` (sketch.js lines 3491-3510).  Normalizes the incoming
confidence by `/ 100`, drops low-confidence neutral observations, otherwise
pushes the entry and cleans the buffer against the entry's timestamp. -/
def addEmotionToBuffer (buffer : List EmotionEntry) (emotionName : String)
    (confidence : ℚ) (timestamp : ℚ) : List EmotionEntry :=
  let normalizedConfidence := confidence / 100
  if isNeutralName emotionName ∧ normalizedConfidence < 9/10 then
    buffer
  else
    cleanEmotionBuffer
      (buffer ++ [⟨emotionName, normalizedConfidence, timestamp⟩]) timestamp

/-- The per-entry score computed inside the `forEach` of
`calculateCompositeEmotionScores` (sketch.js lines 3534-3549):
`score = confidence * (1 + RECENCY_WEIGHT * (1 - age / EMOTION_WINDOW_SIZE))`,
then `score *= 0.9` when the label lowercases to `'neutral'`. -/
def compositeScore (entry : EmotionEntry) (currentTime : ℚ) : ℚ :=
  let age := currentTime - entry.timestamp
  let recencyFactor := 1 + RECENCY_WEIGHT * (1 - age / EMOTION_WINDOW_SIZE)
  let score := entry.confidence * recencyFactor
  if isNeutralName entry.emotion then score * (9/10) else score

/-- `emotionScores[emotion] += score` on a JS object, which keeps string keys
in insertion order: update the existing key in place, or append a fresh key. -/
def addScore (scores : List (String × ℚ)) (emotion : String) (s : ℚ) :
    List (String × ℚ) :=
  match scores with
  | [] => [(emotion, s)]
  | (k, v) :: rest =>
      if k = emotion then (k, v + s) :: rest else (k, v) :: addScore rest emotion s

/-- `calculateCompositeEmotionScores` (sketch.js lines 3523-3558): cleans the
buffer, returns `{neutral: 1.0}` when the cleaned buffer is empty, otherwise
accumulates each entry's composite score into a per-label map. -/
def calculateCompositeEmotionScores (buffer : List EmotionEntry)
    (currentTime : ℚ) : List (String × ℚ) :=
  let cleaned := cleanEmotionBuffer buffer currentTime
  if cleaned = [] then
    [("neutral", 1)]
  else
    cleaned.foldl
      (fun scores entry => addScore scores entry.emotion (compositeScore entry currentTime))
      []

/-- The argmax loop of `selectWinningEmotion` (sketch.js lines 3572-3580):
start from `('neutral', 0)` and replace the best pair whenever a strictly
higher score is seen, iterating in key insertion order. -/
def argmaxLoop (scores : List (String × ℚ)) : String × ℚ :=
  scores.foldl (fun best p => if best.2 < p.2 then p else best) ("neutral", 0)

/-- The object returned by `selectWinningEmotion`:
`{emotion, confidence, totalScore, windowData}`. -/
structure WinResult where
  emotion : String
  confidence : ℚ
  totalScore : ℚ
  windowData : List (String × ℚ)
deriving DecidableEq

/-- `selectWinningEmotion` (sketch.js lines 3563-3596).  `currentTime` stands
for the `Date.now()` default used by the nested
`calculateCompositeEmotionScores()` call; the average confidence is taken over
the (already cleaned) buffer entries whose label equals the winner, defaulting
to `0.5` when there are none. -/
def selectWinningEmotion (buffer : List EmotionEntry) (currentTime : ℚ) :
    WinResult :=
  let emotionScores := calculateCompositeEmotionScores buffer currentTime
  let best := argmaxLoop emotionScores
  let cleaned := cleanEmotionBuffer buffer currentTime
  let winningEntries := cleaned.filter (fun entry => entry.emotion = best.1)
  let avgConfidence :=
    if 0 < winningEntries.length then
      (winningEntries.foldl (fun s entry => s + entry.confidence) 0) /
        (winningEntries.length : ℚ)
    else (1/2 : ℚ)
  ⟨best.1, avgConfidence, best.2, emotionScores⟩

/-- The decision-relevant part of the object built by
`captureBiometricSnapshot` (sketch.js lines 2490-2543): `emotion.name`,
`emotion.intensity` and `emotion.window_analysis`, plus the `metrics` block.
The JS `x || 0.5` falsy-guard on each metric is kept. -/
structure BiometricSnapshot where
  emotionName : String
  emotionIntensity : ℚ
  totalScore : ℚ
  allEmotions : List (String × ℚ)
  engagement : ℚ
  attention : ℚ
  cognitiveLoad : ℚ
deriving DecidableEq

/-- JS `x || 0.5` on a number: `0` is falsy. -/
def orHalf (x : ℚ) : ℚ :=
  if x = 0 then 1/2 else x

/-- `captureBiometricSnapshot` (sketch.js lines 2490-2543).  The live
`currentEmotion` global is in scope in the source but is not read when the
snapshot's emotion is formed; it is kept as an (unused) argument so that
independence from it can be stated. -/
def captureBiometricSnapshot (buffer : List EmotionEntry) (currentTime : ℚ)
    (currentEmotion : String)
    (engagementScore attentionScore cognitiveLoad : ℚ) : BiometricSnapshot :=
  let windowResults := selectWinningEmotion buffer currentTime
  { emotionName := windowResults.emotion
    emotionIntensity := windowResults.confidence
    totalScore := windowResults.totalScore
    allEmotions := windowResults.windowData
    engagement := orHalf engagementScore
    attention := orHalf attentionScore
    cognitiveLoad := orHalf cognitiveLoad }

/-- Specification-side view: the summed composite score of one label over a
buffer — the sum, over the entries carrying exactly that label, of their
composite scores. -/
def sumLabelScore (buffer : List EmotionEntry) (currentTime : ℚ)
    (label : String) : ℚ :=
  (buffer.map (fun entry =>
    if entry.emotion = label then compositeScore entry currentTime else 0)).sum

/-- Value of a label in a score map (first occurrence), `0` when the label is
absent. -/
def lookupScore : List (String × ℚ) → String → ℚ
  | [], _ => 0
  | p :: rest, label => if p.1 = label then p.2 else lookupScore rest label

/-- p5.js `constrain(x, lo, hi)`. -/
def constrain (x lo hi : ℚ) : ℚ :=
  min (max x lo) hi

/-- p5.js `lerp(a, b, t) = a + (b - a) * t`. -/
def lerp (a b t : ℚ) : ℚ :=
  a + (b - a) * t

/-- The scripted-transition fields of one element of `demoScenes`
(sketch.js lines 403-520): `transitionTo`, `transitionDelay`, the
`transitioned` one-shot flag, and the optional `finalEmotion`,
`finalTransitionDelay`, `finalTransitioned` triple.  A JS field that is
absent/undefined (falsy) is `none`. -/
structure Scene where
  transitionTo : Option String
  transitionDelay : ℚ
  transitioned : Bool
  finalEmotion : Option String
  finalTransitionDelay : ℚ
  finalTransitioned : Bool
deriving DecidableEq

/-- The mutable globals of sketch.js that the claims observe:
`currentEmotion`, `emotionIntensity`, `engagementScore`, `attentionScore`,
`cognitiveLoad`.  Wave amplitudes and timer bookkeeping are outside every
claim and are not carried. -/
structure EmoState where
  currentEmotion : String
  emotionIntensity : ℚ
  engagementScore : ℚ
  attentionScore : ℚ
  cognitiveLoad : ℚ
deriving DecidableEq

/-- The per-emotion bio-signal adjustment of the different-label branch of
`updateDemoScene` (sketch.js lines 3050-3060): branch on the new
`currentEmotion`. -/
def demoTransitionBioSignals (st : EmoState) : EmoState :=
  if st.currentEmotion = "neutral" then
    { st with engagementScore := min (st.engagementScore + 1/5) (9/10),
              cognitiveLoad := max (st.cognitiveLoad - 1/5) (3/10) }
  else if st.currentEmotion = "happy" then
    { st with engagementScore := min (st.engagementScore + 3/10) (9/10),
              cognitiveLoad := max (st.cognitiveLoad - 3/10) (1/5) }
  else if st.currentEmotion = "frustrated" then
    { st with engagementScore := max (st.engagementScore - 1/5) (1/5),
              cognitiveLoad := min (st.cognitiveLoad + 1/5) (9/10) }
  else st

/-- The first (scripted-transition) block of `updateDemoScene`
(sketch.js lines 3017-3064): fires at most once per scene, splitting on
whether the scripted target equals the active emotion. -/
def demoTransitionStep (scene : Scene) (st : EmoState) (elapsedTime : ℚ) :
    Scene × EmoState :=
  match scene.transitionTo with
  | none => (scene, st)
  | some target =>
      if scene.transitioned = false ∧ scene.transitionDelay ≤ elapsedTime then
        if target = st.currentEmotion then
          ({ scene with transitioned := true },
           { st with emotionIntensity := 9/10,
                     cognitiveLoad := min (st.cognitiveLoad + 3/20) (19/20),
                     engagementScore := max (st.engagementScore - 1/10) (3/10),
                     attentionScore := max (st.attentionScore - 1/10) (2/5) })
        else
          ({ scene with transitioned := true },
           demoTransitionBioSignals
             { st with currentEmotion := target, emotionIntensity := 7/10 })
      else (scene, st)

/-- The final-transition block of `updateDemoScene` (sketch.js lines
3066-3094): fires only after the first block has fired, at most once. -/
def demoFinalStep (scene : Scene) (st : EmoState) (elapsedTime : ℚ) :
    Scene × EmoState :=
  match scene.finalEmotion with
  | none => (scene, st)
  | some finalE =>
      if scene.transitioned = true ∧ scene.finalTransitioned = false ∧
          scene.finalTransitionDelay ≤ elapsedTime then
        ({ scene with finalTransitioned := true },
         if finalE = "neutral" then
           { st with currentEmotion := finalE, emotionIntensity := 3/5,
                     engagementScore := 7/10, cognitiveLoad := 1/2 }
         else { st with currentEmotion := finalE, emotionIntensity := 3/5 })
      else (scene, st)

/-- `updateDemoScene` (sketch.js lines 3010-3094): guarded by
`if (!demoMode) return`, then the scripted-transition block followed by the
final-transition block, both against `elapsedTime = millis() - sceneStartTime`. -/
def updateDemoScene (demoMode : Bool) (scene : Scene) (st : EmoState)
    (elapsedTime : ℚ) : Scene × EmoState :=
  if demoMode = false then (scene, st)
  else
    demoFinalStep (demoTransitionStep scene st elapsedTime).1
      (demoTransitionStep scene st elapsedTime).2 elapsedTime

/-- The weighted transition tables of `triggerRandomStateChange`
(sketch.js lines 3327-3358), in JS key insertion order; the initial
`let transitionProbabilities = {}` stays empty for any other label. -/
def transitionProbabilities (currentEmotion : String) : List (String × ℚ) :=
  if currentEmotion = "neutral" then
    [("happy", 1/2), ("confused", 3/10), ("frustrated", 3/20), ("neutral", 1/20)]
  else if currentEmotion = "happy" then
    [("neutral", 3/20), ("confused", 1/2), ("frustrated", 1/4), ("happy", 1/10)]
  else if currentEmotion = "confused" then
    [("neutral", 1/10), ("happy", 9/20), ("frustrated", 1/4), ("confused", 1/5)]
  else if currentEmotion = "frustrated" then
    [("neutral", 3/20), ("confused", 2/5), ("happy", 3/10), ("frustrated", 3/20)]
  else []

/-- The cumulative-distribution walk of `triggerRandomStateChange`
(sketch.js lines 3360-3370): accumulate the probabilities in key order and
take the first key whose running total reaches the draw; keep the current
emotion when the loop falls through. -/
def pickEmotionGo (probs : List (String × ℚ)) (r : ℚ) (cumulative : ℚ)
    (current : String) : String :=
  match probs with
  | [] => current
  | (emotion, p) :: rest =>
      if r ≤ cumulative + p then emotion else pickEmotionGo rest r (cumulative + p) current

/-- `newEmotion` as computed by the loop, starting from cumulative `0` and
defaulting to the current emotion. -/
def pickEmotion (probs : List (String × ℚ)) (r : ℚ) (current : String) : String :=
  pickEmotionGo probs r 0 current

/-- `updateCognitiveMetricsForEmotion` (sketch.js lines 3404-3425).  The three
`Math.random()` draws of the taken branch are the parameters `r1 r2 r3`
(each in `[0,1)`).  Unknown labels leave the metrics untouched.  The trailing
`updateEEGWavesForEmotion` call only writes wave-amplitude globals, which are
outside the modelled state. -/
def updateCognitiveMetricsForEmotion (emotion : String) (r1 r2 r3 : ℚ)
    (st : EmoState) : EmoState :=
  if emotion = "happy" then
    { st with engagementScore := min (4/5 + r1 * (3/20)) (19/20),
              attentionScore := min (3/4 + r2 * (3/20)) (9/10),
              cognitiveLoad := max (1/5 + r3 * (1/5)) (1/4) }
  else if emotion = "neutral" then
    { st with engagementScore := 3/5 + r1 * (1/5),
              attentionScore := 11/20 + r2 * (1/4),
              cognitiveLoad := 2/5 + r3 * (1/5) }
  else if emotion = "confused" then
    { st with engagementScore := max (2/5 + r1 * (1/5)) (7/20),
              attentionScore := max (1/2 + r2 * (3/20)) (2/5),
              cognitiveLoad := min (7/10 + r3 * (1/5)) (9/10) }
  else if emotion = "frustrated" then
    { st with engagementScore := max (1/5 + r1 * (1/5)) (1/4),
              attentionScore := max (3/10 + r2 * (1/5)) (7/20),
              cognitiveLoad := min (4/5 + r3 * (3/20)) (19/20) }
  else st

/-- `triggerRandomStateChange` (sketch.js lines 3310-3402).  `r` is the
`Math.random()` draw for the table walk, `r1 r2 r3` the draws consumed by
`updateCognitiveMetricsForEmotion`, and `now` the `Date.now()` default
timestamp of the buffer insertion.  Skipped entirely in demo mode or while
the webcam controls state; a draw equal to the current emotion is a no-op. -/
def triggerRandomStateChange (demoMode webcamControlsState : Bool)
    (st : EmoState) (buffer : List EmotionEntry) (r r1 r2 r3 now : ℚ) :
    EmoState × List EmotionEntry :=
  if demoMode = true ∨ webcamControlsState = true then (st, buffer)
  else
    let previousEmotion := st.currentEmotion
    let probs := transitionProbabilities st.currentEmotion
    let newEmotion := pickEmotion probs r st.currentEmotion
    if newEmotion = previousEmotion then (st, buffer)
    else
      let buffer1 := addEmotionToBuffer buffer newEmotion 75 now
      let st1 := { st with currentEmotion := newEmotion, emotionIntensity := 9/10 }
      let st2 := updateCognitiveMetricsForEmotion newEmotion r1 r2 r3 st1
      (st2, buffer1)

/-- `updateBioSignals` (sketch.js lines 2966-3000): the engagement-score tail.
`rEng` is the `random(-0.03, 0.03)` draw; the wave-amplitude writes touch
globals outside the modelled state. -/
def updateBioSignals (rEng : ℚ) (st : EmoState) : EmoState :=
  let e := st.engagementScore + rEng * (1 - emotionStability)
  let e1 := constrain e (1/10) (9/10)
  let e2 :=
    if st.currentEmotion = "happy" then lerp e1 (4/5) (1/100)
    else if st.currentEmotion = "frustrated" then lerp e1 (3/10) (1/100)
    else e1
  { st with engagementScore := e2 }

/-- Environment inputs consumed by one `updateEmotionState` tick
(sketch.js lines 2800-2965): the mode flags, the active demo scene's
`bioSignals.emotion`/`bioSignals.engagement`, the random and `sin` draws, the
cooldown test `currentTime - lastEmotionChange > emotionCooldown`, the
`lastAgentMessage.includes(...)` keyword tests, and the index drawn by
p5 `random(array)`. -/
structure TickParams where
  demoMode : Bool
  webcamControlsState : Bool
  sceneEmotion : String
  sceneEngagement : ℚ
  rFluct : ℚ
  sinVal : ℚ
  rEng : ℚ
  cooldownPassed : Bool
  mComplex : Bool
  mDifficult : Bool
  mChallenging : Bool
  mSimple : Bool
  mClear : Bool
  mUnderstand : Bool
  mExcellent : Bool
  rSmall : ℚ
  pickIdx : ℕ

/-- The `transitionProbability` accumulation of the autonomous branch of
`updateEmotionState` (sketch.js lines 2856-2897). -/
def autonomousTransitionProbability (p : TickParams) (st : EmoState) : ℚ :=
  let prob : ℚ := 0
  let prob :=
    if p.mComplex = true ∨ p.mDifficult = true ∨ p.mChallenging = true then
      if st.currentEmotion = "happy" then prob + 1/5
      else if st.currentEmotion = "neutral" then prob + 3/10
      else prob
    else prob
  let prob :=
    if p.mSimple = true ∨ p.mClear = true ∨ p.mUnderstand = true ∨ p.mExcellent = true then
      if st.currentEmotion = "confused" then prob + 3/10
      else if st.currentEmotion = "frustrated" then prob + 1/5
      else prob
    else prob
  let prob := if st.engagementScore < 3/10 then prob + 1/5 else prob
  let prob := if 7/10 < st.engagementScore then prob + 1/5 else prob
  let prob :=
    if st.currentEmotion = "confused" ∧ 4/5 < st.emotionIntensity then prob + 1/5
    else prob
  let prob := prob + p.rSmall
  prob * (1 - emotionStability)

/-- The `possibleEmotions` list built in the autonomous branch of
`updateEmotionState` (sketch.js lines 2900-2941); the initial `[]` survives
for labels outside the core four. -/
def possibleEmotionsFor (p : TickParams) (st : EmoState) : List String :=
  if st.currentEmotion = "happy" then
    ["neutral", "neutral", "neutral", "confused", "frustrated"]
  else if st.currentEmotion = "neutral" then
    if 7/10 < st.engagementScore ∨ p.mClear = true then
      ["happy", "happy", "confused", "frustrated"]
    else if p.mComplex = true then
      ["confused", "confused", "happy", "frustrated"]
    else if st.engagementScore < 3/10 then
      ["frustrated", "confused", "happy"]
    else ["happy", "confused", "frustrated"]
  else if st.currentEmotion = "confused" then
    if p.mSimple = true ∨ p.mUnderstand = true then
      ["neutral", "neutral", "happy", "frustrated"]
    else if 4/5 < st.emotionIntensity ∨ st.engagementScore < 3/10 then
      ["frustrated", "frustrated", "neutral"]
    else ["neutral", "frustrated", "happy"]
  else if st.currentEmotion = "frustrated" then
    if p.mSimple = true ∨ p.mUnderstand = true then
      ["neutral", "neutral", "confused", "happy"]
    else ["confused", "confused", "neutral", "happy"]
  else []

/-- p5 `random(array)`: a uniformly drawn element, modelled by an index;
`random([])` yields JS `undefined`, modelled by the sentinel string
`"undefined"` (it only ever flows into `currentEmotion`). -/
def pickFromList (l : List String) (idx : ℕ) : String :=
  match l.get? (idx % l.length) with
  | some e => e
  | none => "undefined"

/-- `updateEmotionState` (sketch.js lines 2800-2965).  Demo/webcam modes only
fluctuate intensity (with the scripted-target catch-up in demo mode);
autonomous mode additionally runs the content-based transition logic when the
cooldown has passed.  Both paths end in `updateBioSignals`. -/
def updateEmotionState (p : TickParams) (st : EmoState) : EmoState :=
  if p.demoMode = true ∨ p.webcamControlsState = true then
    let st1 :=
      { st with emotionIntensity := constrain (st.emotionIntensity + p.rFluct) (1/5) 1 }
    let st2 :=
      if p.demoMode = true then
        let st2 :=
          if st1.currentEmotion ≠ p.sceneEmotion then
            let i2 := st1.emotionIntensity + 1/20
            if emotionTransitionThreshold ≤ i2 then
              { st1 with currentEmotion := p.sceneEmotion, emotionIntensity := 1/2 }
            else { st1 with emotionIntensity := i2 }
          else { st1 with emotionIntensity := 1/2 + p.sinVal * (3/10) }
        { st2 with engagementScore := lerp st2.engagementScore p.sceneEngagement (1/20) }
      else st1
    updateBioSignals p.rEng st2
  else
    let st1 :=
      { st with emotionIntensity := constrain (st.emotionIntensity + p.rFluct) (1/5) 1 }
    let st2 :=
      if p.cooldownPassed = true then
        if emotionTransitionThreshold < autonomousTransitionProbability p st1 then
          let newEmotion := pickFromList (possibleEmotionsFor p st1) p.pickIdx
          if newEmotion ≠ st1.currentEmotion then
            { st1 with currentEmotion := newEmotion, emotionIntensity := 1/2 }
          else st1
        else st1
      else st1
    updateBioSignals p.rEng st2

/-- The intensity tail of the non-webcam branches of
`updateBioSignalSimulation` (sketch.js lines 1271-1292):
`emotionIntensity *= 0.99995` then `constrain(_, 0.5, 1.0)`. -/
def updateBioSignalSimulationDecay (st : EmoState) : EmoState :=
  { st with emotionIntensity := constrain (st.emotionIntensity * (99995/100000)) (1/2) 1 }

/-- One row of the `emotionMetricsMap` object literal inside
`forceGlobalEmotionUpdate` (panels.js lines 2092-2102). -/
structure MetricsTriple where
  engagement : ℚ
  attention : ℚ
  cognitiveLoad : ℚ
deriving DecidableEq

/-- `emotionMetricsMap[detectedEmotion.toLowerCase()] || emotionMetricsMap['neutral']`
(panels.js lines 2092-2105). -/
def emotionMetricsMap (label : String) : MetricsTriple :=
  if label = "happy" then ⟨17/20, 3/4, 1/4⟩
  else if label = "neutral" then ⟨3/5, 11/20, 9/20⟩
  else if label = "confused" then ⟨9/20, 3/5, 3/4⟩
  else if label = "frustrated" then ⟨7/20, 2/5, 17/20⟩
  else if label = "angry" then ⟨2/5, 1/2, 4/5⟩
  else if label = "sad" then ⟨3/10, 7/20, 3/5⟩
  else if label = "disgust" then ⟨7/20, 2/5, 7/10⟩
  else if label = "fear" then ⟨1/2, 7/10, 4/5⟩
  else if label = "surprise" then ⟨7/10, 4/5, 13/20⟩
  else ⟨3/5, 11/20, 9/20⟩

/-- `randomFactor = () => (1.0 + (Math.random() * 0.1 - 0.05))`
(panels.js line 2108). -/
def randomFactor (r : ℚ) : ℚ :=
  1 + (r * (1/10) - 1/20)

/-- `forceGlobalEmotionUpdate` (panels.js lines 2059-2147): early-returns when
`webcamControlsState` is falsy; otherwise feeds the observation into the
buffer (converting confidence back to the 0-100 range), overwrites
`currentEmotion`/`emotionIntensity`, sets the metrics from the lookup table
with ±5% jitter, and finally runs the legacy
`updateCognitiveMetricsForEmotion`. -/
def forceGlobalEmotionUpdate (webcamControlsState : Bool)
    (detectedEmotion : String) (confidence : ℚ)
    (rf1 rf2 rf3 r1 r2 r3 now : ℚ)
    (st : EmoState) (buffer : List EmotionEntry) :
    EmoState × List EmotionEntry :=
  if webcamControlsState = false then (st, buffer)
  else
    let buffer1 := addEmotionToBuffer buffer detectedEmotion (confidence * 100) now
    let metrics := emotionMetricsMap (lowerString detectedEmotion)
    let eng := orHalf (metrics.engagement * randomFactor rf1)
    let att := orHalf (metrics.attention * randomFactor rf2)
    let cl := orHalf (metrics.cognitiveLoad * randomFactor rf3)
    let st1 :=
      { st with currentEmotion := detectedEmotion,
                emotionIntensity := 7/10,
                engagementScore := eng,
                attentionScore := att,
                cognitiveLoad := cl }
    let st2 := updateCognitiveMetricsForEmotion detectedEmotion r1 r2 r3 st1
    (st2, buffer1)

/-- One state-mutating operation of the engine, with the environment inputs
it consumes. -/
inductive EngineOp where
  | tick (p : TickParams)
  | demoScene (demoMode : Bool) (scene : Scene) (elapsedTime : ℚ)
  | randomChange (demoMode webcamControlsState : Bool) (r r1 r2 r3 now : ℚ)
  | metricsLookup (emotion : String) (r1 r2 r3 : ℚ)
  | bioDecay
  | observationArrival (webcamControlsState : Bool) (detectedEmotion : String)
      (confidence : ℚ) (rf1 rf2 rf3 r1 r2 r3 now : ℚ)

/-- Run one operation on the global state (emotion state plus buffer). -/
def applyOp (s : EmoState × List EmotionEntry) : EngineOp → EmoState × List EmotionEntry
  | .tick p => (updateEmotionState p s.1, s.2)
  | .demoScene dm scene e => ((updateDemoScene dm scene s.1 e).2, s.2)
  | .randomChange dm w r r1 r2 r3 now => triggerRandomStateChange dm w s.1 s.2 r r1 r2 r3 now
  | .metricsLookup em r1 r2 r3 => (updateCognitiveMetricsForEmotion em r1 r2 r3 s.1, s.2)
  | .bioDecay => (updateBioSignalSimulationDecay s.1, s.2)
  | .observationArrival w d c rf1 rf2 rf3 r1 r2 r3 now =>
      forceGlobalEmotionUpdate w d c rf1 rf2 rf3 r1 r2 r3 now s.1 s.2

/-- Run a sequence of operations. -/
def applyOps (s : EmoState × List EmotionEntry) (ops : List EngineOp) :
    EmoState × List EmotionEntry :=
  ops.foldl applyOp s

/-- A `Math.random()` draw lies in the unit interval. -/
def unitDraw (r : ℚ) : Prop :=
  0 ≤ r ∧ r ≤ 1

instance : DecidablePred unitDraw := fun r => by
  unfold unitDraw; infer_instance

/-- Ranges of the environment inputs of one tick: the random draws stay in
the intervals `random(a, b)` was called with, `sin` stays in `[-1, 1]`, and
the scene's scripted engagement value (one of the constants 0.4-0.8 in
`demoScenes`) lies in `[0, 1]`. -/
def TickParams.WF (p : TickParams) : Prop :=
  -1/10 ≤ p.rFluct ∧ p.rFluct ≤ 1/10 ∧
  -1 ≤ p.sinVal ∧ p.sinVal ≤ 1 ∧
  -3/100 ≤ p.rEng ∧ p.rEng ≤ 3/100 ∧
  0 ≤ p.rSmall ∧ p.rSmall ≤ 1/20 ∧
  0 ≤ p.sceneEngagement ∧ p.sceneEngagement ≤ 1

instance : DecidablePred TickParams.WF := fun p => by
  unfold TickParams.WF; infer_instance

/-- Well-formedness of one operation's environment inputs. -/
def EngineOp.WF : EngineOp → Prop
  | .tick p => p.WF
  | .demoScene _ _ _ => True
  | .randomChange _ _ r r1 r2 r3 _ => unitDraw r ∧ unitDraw r1 ∧ unitDraw r2 ∧ unitDraw r3
  | .metricsLookup _ r1 r2 r3 => unitDraw r1 ∧ unitDraw r2 ∧ unitDraw r3
  | .bioDecay => True
  | .observationArrival _ _ _ rf1 rf2 rf3 r1 r2 r3 _ =>
      unitDraw rf1 ∧ unitDraw rf2 ∧ unitDraw rf3 ∧
      unitDraw r1 ∧ unitDraw r2 ∧ unitDraw r3

instance : DecidablePred EngineOp.WF := fun op => by
  cases op <;> (unfold EngineOp.WF; infer_instance)

/-- The metric-clamping invariant of the spec: engagement, attention and
cognitive load in `[0, 1]`, intensity in `[0.2, 1.0]`. -/
def MetricInv (st : EmoState) : Prop :=
  0 ≤ st.engagementScore ∧ st.engagementScore ≤ 1 ∧
  0 ≤ st.attentionScore ∧ st.attentionScore ≤ 1 ∧
  0 ≤ st.cognitiveLoad ∧ st.cognitiveLoad ≤ 1 ∧
  1/5 ≤ st.emotionIntensity ∧ st.emotionIntensity ≤ 1

instance : DecidablePred MetricInv := fun st => by
  unfold MetricInv; infer_instance

theorem mem_cleanEmotionBuffer {buffer : List EmotionEntry} {t : ℚ}
    {e : EmotionEntry} :
    e ∈ cleanEmotionBuffer buffer t ↔
      e ∈ buffer ∧ t - EMOTION_WINDOW_SIZE ≤ e.timestamp := by
  simp [cleanEmotionBuffer, List.mem_filter]

theorem cleanEmotionBuffer_idem (buffer : List EmotionEntry) (t : ℚ) :
    cleanEmotionBuffer (cleanEmotionBuffer buffer t) t = cleanEmotionBuffer buffer t := by
  simp [cleanEmotionBuffer, List.filter_filter]

theorem isNeutralName_neutral : isNeutralName "neutral" = true := by decide

theorem isNeutralName_happy : isNeutralName "happy" = false := by decide

theorem window_pos : (0 : ℚ) < EMOTION_WINDOW_SIZE := by
  norm_num [EMOTION_WINDOW_SIZE]

theorem sub_window_le (t : ℚ) : t - EMOTION_WINDOW_SIZE ≤ t := by
  have h := window_pos
  linarith

theorem happy200_eval :
    addEmotionToBuffer [] "happy" 200 0 = [⟨"happy", 2, 0⟩] := by
  unfold addEmotionToBuffer
  rw [if_neg (by simp [isNeutralName_happy])]
  simp [cleanEmotionBuffer, List.filter]
  norm_num [EMOTION_WINDOW_SIZE]

theorem selectWinning_nil_eval :
    selectWinningEmotion [] 0 = ⟨"neutral", 1/2, 1, [("neutral", 1)]⟩ := by
  norm_num [selectWinningEmotion, calculateCompositeEmotionScores,
    cleanEmotionBuffer, argmaxLoop, List.filter]

/-- Claim C10: an external-detector report delivered while webcam control mode
is inactive is discarded entirely — `forceGlobalEmotionUpdate` returns at its
guard, the buffer receives no entry, and every metric keeps its prior value. -/
theorem inactive_webcam_report_ignored (detectedEmotion : String)
    (confidence rf1 rf2 rf3 r1 r2 r3 now : ℚ) (st : EmoState)
    (buffer : List EmotionEntry) :
    forceGlobalEmotionUpdate false detectedEmotion confidence
      rf1 rf2 rf3 r1 r2 r3 now st buffer = (st, buffer) := rfl

/-- Claim C8 counterexample: `addEmotionToBuffer` applied to confidence `200`
stores the entry with confidence `2.0`, which lies outside `[0, 1]` — no
clamping happens before storage. -/
theorem record_stores_unclamped_confidence :
    addEmotionToBuffer [] "happy" 200 0 = [⟨"happy", 2, 0⟩] ∧
    ¬((2 : ℚ) ≤ 1) :=
  ⟨happy200_eval, by norm_num⟩

/-- Claim C8 amended: `addEmotionToBuffer` normalizes confidence by dividing
by 100 but never clamps it; every entry of the resulting buffer either was
already present or carries exactly `confidence / 100`. -/
theorem record_confidence_normalization (buffer : List EmotionEntry)
    (name : String) (conf ts : ℚ) (e : EmotionEntry)
    (he : e ∈ addEmotionToBuffer buffer name conf ts) :
    e ∈ buffer ∨ e.confidence = conf / 100 := by
  simp only [addEmotionToBuffer] at he
  split_ifs at he
  · exact Or.inl he
  · rcases mem_cleanEmotionBuffer.mp he with ⟨hmem, -⟩
    rcases List.mem_append.mp hmem with h | h
    · exact Or.inl h
    · right
      rw [List.mem_singleton.mp h]

theorem record_confidence_normalization_witness :
    (⟨"happy", 2, 0⟩ : EmotionEntry) ∈ addEmotionToBuffer [] "happy" 200 0 ∧
    ((⟨"happy", 2, 0⟩ : EmotionEntry) ∈ ([] : List EmotionEntry) ∨
      (⟨"happy", 2, 0⟩ : EmotionEntry).confidence = 200 / 100) := by
  have hm : (⟨"happy", 2, 0⟩ : EmotionEntry) ∈ addEmotionToBuffer [] "happy" 200 0 := by
    rw [happy200_eval]
    exact List.mem_singleton.mpr rfl
  exact ⟨hm, record_confidence_normalization [] "happy" 200 0 ⟨"happy", 2, 0⟩ hm⟩

/-- Claim C4 counterexample: with an empty buffer the decision returned by
`selectWinningEmotion` has confidence `0.5` (the fallback average over the
zero entries labelled with the winner), not `1.0`; the `1.0` is the winner's
composite score. -/
theorem empty_buffer_confidence_not_one :
    (selectWinningEmotion [] 0).emotion = "neutral" ∧
    (selectWinningEmotion [] 0).confidence = 1/2 ∧
    (selectWinningEmotion [] 0).confidence ≠ 1 := by
  rw [selectWinning_nil_eval]
  norm_num

/-- Claim C4 amended: whenever the cleaned buffer is empty at scoring time,
the returned decision is emotion `neutral` with total score `1.0` and
confidence `0.5` (the fallback average confidence). -/
theorem empty_buffer_default_decision (buffer : List EmotionEntry) (now : ℚ)
    (h : cleanEmotionBuffer buffer now = []) :
    selectWinningEmotion buffer now = ⟨"neutral", 1/2, 1, [("neutral", 1)]⟩ := by
  unfold selectWinningEmotion calculateCompositeEmotionScores
  rw [h]
  norm_num [argmaxLoop]

theorem empty_buffer_default_decision_witness :
    cleanEmotionBuffer [] (0 : ℚ) = [] ∧
    selectWinningEmotion [] 0 = ⟨"neutral", 1/2, 1, [("neutral", 1)]⟩ :=
  ⟨rfl, empty_buffer_default_decision [] 0 rfl⟩

/-- Claim C5 counterexample: a `record` call whose neutral observation is
dropped returns before the cleaning pass, so an entry strictly older than the
window survives the operation — `record(neutral, 50)` at `t = 6000` leaves a
timestamp-0 entry in place although `0 < 6000 - 5000`. -/
theorem dropped_record_skips_clean :
    addEmotionToBuffer [⟨"happy", 1/2, 0⟩] "neutral" 50 6000 =
      [⟨"happy", 1/2, 0⟩] ∧
    (⟨"happy", 1/2, 0⟩ : EmotionEntry).timestamp < 6000 - EMOTION_WINDOW_SIZE := by
  constructor
  · unfold addEmotionToBuffer
    rw [if_pos ⟨isNeutralName_neutral, by norm_num⟩]
  · norm_num [EMOTION_WINDOW_SIZE]

/-- Claim C5 amended: after a `clean` at time `t`, and after any `record` at
time `t` that actually appends, every remaining entry has timestamp at least
`t - 5000`; cleaning removes no in-window entry and is idempotent.  A record
whose observation is dropped by the neutral filter returns early and performs
no clean at all, so it can leave stale entries in place. -/
theorem buffer_window_invariant :
    (∀ (b : List EmotionEntry) (t : ℚ) (e : EmotionEntry),
        e ∈ cleanEmotionBuffer b t → t - EMOTION_WINDOW_SIZE ≤ e.timestamp)
  ∧ (∀ (b : List EmotionEntry) (t : ℚ) (e : EmotionEntry),
        e ∈ b → t - EMOTION_WINDOW_SIZE ≤ e.timestamp → e ∈ cleanEmotionBuffer b t)
  ∧ (∀ (b : List EmotionEntry) (t : ℚ),
        cleanEmotionBuffer (cleanEmotionBuffer b t) t = cleanEmotionBuffer b t)
  ∧ (∀ (b : List EmotionEntry) (name : String) (c t : ℚ) (e : EmotionEntry),
        ¬(isNeutralName name = true ∧ c / 100 < 9/10) →
        e ∈ addEmotionToBuffer b name c t → t - EMOTION_WINDOW_SIZE ≤ e.timestamp)
  ∧ (∀ (b : List EmotionEntry) (name : String) (c t : ℚ),
        isNeutralName name = true ∧ c / 100 < 9/10 →
        addEmotionToBuffer b name c t = b) := by
  refine ⟨?_, ?_, cleanEmotionBuffer_idem, ?_, ?_⟩
  · intro b t e he
    exact (mem_cleanEmotionBuffer.mp he).2
  · intro b t e he hts
    exact mem_cleanEmotionBuffer.mpr ⟨he, hts⟩
  · intro b name c t e hcond he
    simp only [addEmotionToBuffer] at he
    rw [if_neg hcond] at he
    exact (mem_cleanEmotionBuffer.mp he).2
  · intro b name c t hcond
    unfold addEmotionToBuffer
    rw [if_pos hcond]

theorem buffer_window_invariant_witness :
    (¬(isNeutralName "happy" = true ∧ (50 : ℚ) / 100 < 9/10) ∧
      (⟨"happy", 1/2, 0⟩ : EmotionEntry) ∈ addEmotionToBuffer [] "happy" 50 0 ∧
      (0 : ℚ) - EMOTION_WINDOW_SIZE ≤ (⟨"happy", 1/2, 0⟩ : EmotionEntry).timestamp)
  ∧ (isNeutralName "neutral" = true ∧ (50 : ℚ) / 100 < 9/10 ∧
      addEmotionToBuffer [⟨"happy", 1/2, 0⟩] "neutral" 50 6000 = [⟨"happy", 1/2, 0⟩]) := by
  have hcond : ¬(isNeutralName "happy" = true ∧ (50 : ℚ) / 100 < 9/10) := by
    simp [isNeutralName_happy]
  have hmem : (⟨"happy", 1/2, 0⟩ : EmotionEntry) ∈ addEmotionToBuffer [] "happy" 50 0 := by
    unfold addEmotionToBuffer
    rw [if_neg hcond]
    refine mem_cleanEmotionBuffer.mpr ⟨?_, ?_⟩
    · simp
      norm_num
    · exact sub_window_le 0
  refine ⟨⟨hcond, hmem, ?_⟩, isNeutralName_neutral, by norm_num, ?_⟩
  · exact buffer_window_invariant.2.2.2.1 [] "happy" 50 0 ⟨"happy", 1/2, 0⟩ hcond hmem
  · exact buffer_window_invariant.2.2.2.2 [⟨"happy", 1/2, 0⟩] "neutral" 50 6000
      ⟨isNeutralName_neutral, by norm_num⟩

/-- Claim C3: a `record` of a (case-insensitively) neutral observation with
normalized confidence below `0.9` leaves the buffer unchanged; any other
record appends exactly one entry holding the label, the normalized confidence
`confidence / 100` and the given timestamp (followed by the window clean).
Concretely, `record(neutral, 50)` adds nothing and `record(neutral, 95)` adds
one entry. -/
theorem record_neutral_filtering (buffer : List EmotionEntry) (name : String)
    (conf ts : ℚ) :
    ((isNeutralName name = true ∧ conf / 100 < 9/10) →
        addEmotionToBuffer buffer name conf ts = buffer)
  ∧ (¬(isNeutralName name = true ∧ conf / 100 < 9/10) →
        addEmotionToBuffer buffer name conf ts =
          cleanEmotionBuffer (buffer ++ [⟨name, conf / 100, ts⟩]) ts ∧
        (⟨name, conf / 100, ts⟩ : EmotionEntry) ∈ addEmotionToBuffer buffer name conf ts)
  ∧ addEmotionToBuffer buffer "neutral" 50 ts = buffer
  ∧ (addEmotionToBuffer [] "neutral" 95 ts).length = 1 := by
  refine ⟨?_, ?_, ?_, ?_⟩
  · intro hcond
    unfold addEmotionToBuffer
    rw [if_pos hcond]
  · intro hcond
    constructor
    · unfold addEmotionToBuffer
      rw [if_neg hcond]
    · unfold addEmotionToBuffer
      rw [if_neg hcond]
      refine mem_cleanEmotionBuffer.mpr
        ⟨List.mem_append_right _ (List.mem_singleton.mpr rfl), sub_window_le ts⟩
  · unfold addEmotionToBuffer
    rw [if_pos ⟨isNeutralName_neutral, by norm_num⟩]
  · unfold addEmotionToBuffer
    rw [if_neg (by norm_num [isNeutralName_neutral])]
    simp [cleanEmotionBuffer, List.filter, sub_window_le ts]

theorem record_neutral_filtering_witness :
    addEmotionToBuffer [] "neutral" 50 (0 : ℚ) = [] ∧
    (addEmotionToBuffer [] "neutral" 95 (0 : ℚ)).length = 1 ∧
    (isNeutralName "neutral" = true ∧ (50 : ℚ) / 100 < 9/10) :=
  ⟨(record_neutral_filtering [] "neutral" 50 0).1 ⟨isNeutralName_neutral, by norm_num⟩,
   (record_neutral_filtering [] "neutral" 95 0).2.2.2,
   isNeutralName_neutral, by norm_num⟩

theorem sumLabelScore_cons (e : EmotionEntry) (rest : List EmotionEntry)
    (now : ℚ) (l : String) :
    sumLabelScore (e :: rest) now l =
      (if e.emotion = l then compositeScore e now else 0) + sumLabelScore rest now l := by
  simp [sumLabelScore]

theorem lookupScore_addScore (scores : List (String × ℚ)) (em : String)
    (s : ℚ) (l : String) :
    lookupScore (addScore scores em s) l =
      lookupScore scores l + (if em = l then s else 0) := by
  induction scores with
  | nil =>
      by_cases h : em = l
      · subst h
        simp [addScore, lookupScore]
      · simp [addScore, lookupScore, h]
  | cons p rest ih =>
      obtain ⟨k, v⟩ := p
      by_cases hk : k = em
      · subst hk
        by_cases hl : k = l
        · subst hl
          simp [addScore, lookupScore]
        · simp [addScore, lookupScore, hl]
      · by_cases hl : k = l
        · subst hl
          simp [addScore, lookupScore, hk, Ne.symm hk]
        · simp [addScore, lookupScore, hk, hl, ih]

theorem lookupScore_scoreFold (now : ℚ) (entries : List EmotionEntry) :
    ∀ (acc : List (String × ℚ)) (l : String),
    lookupScore
        (entries.foldl (fun sc e => addScore sc e.emotion (compositeScore e now)) acc) l =
      lookupScore acc l + sumLabelScore entries now l := by
  induction entries with
  | nil =>
      intro acc l
      simp [sumLabelScore]
  | cons e rest ih =>
      intro acc l
      rw [List.foldl_cons, ih, lookupScore_addScore, sumLabelScore_cons]
      ring

theorem composite_contribution_formula :
    (∀ (entry : EmotionEntry) (now : ℚ),
        compositeScore entry now =
          entry.confidence *
            (1 + (1/20) * (1 - (now - entry.timestamp) / 5000)) *
            (if isNeutralName entry.emotion = true then 9/10 else 1))
  ∧ (∀ (buffer : List EmotionEntry) (now : ℚ) (label : String),
        cleanEmotionBuffer buffer now ≠ [] →
        lookupScore (calculateCompositeEmotionScores buffer now) label =
          sumLabelScore (cleanEmotionBuffer buffer now) now label)
  ∧ (∀ (c ts now : ℚ), 9/10 ≤ c → now - ts ≤ EMOTION_WINDOW_SIZE →
        compositeScore ⟨"neutral", c, ts⟩ now < compositeScore ⟨"happy", c, ts⟩ now)
  ∧ (∀ (name : String) (c now : ℚ), 0 < c →
        compositeScore ⟨name, c, now - EMOTION_WINDOW_SIZE⟩ now <
          compositeScore ⟨name, c, now⟩ now) := by
  refine ⟨?_, ?_, ?_, ?_⟩
  · intro entry now
    simp only [compositeScore, RECENCY_WEIGHT, EMOTION_WINDOW_SIZE]
    split_ifs <;> ring
  · intro buffer now label h
    unfold calculateCompositeEmotionScores
    rw [if_neg h, lookupScore_scoreFold]
    simp [lookupScore]
  · intro c ts now hc hts
    have hts5 : now - ts ≤ 5000 := by simpa [EMOTION_WINDOW_SIZE] using hts
    simp only [compositeScore, RECENCY_WEIGHT, EMOTION_WINDOW_SIZE,
      isNeutralName_neutral, isNeutralName_happy]
    norm_num
    have hdiv : (now - ts) / 5000 ≤ 1 := by linarith
    have hf : (1 : ℚ) ≤ 1 + 1/20 * (1 - (now - ts) / 5000) := by linarith
    have hcf : 0 < c * (1 + 1/20 * (1 - (now - ts) / 5000)) := by positivity
    nlinarith [hcf]
  · intro name c now hc
    simp only [compositeScore, RECENCY_WEIGHT, EMOTION_WINDOW_SIZE]
    have harith : now - (now - 5000) = 5000 := by ring
    split_ifs <;> nlinarith [hc]

theorem composite_contribution_formula_witness :
    ((9:ℚ)/10 ≤ 9/10 ∧ (0:ℚ) - 0 ≤ EMOTION_WINDOW_SIZE ∧
      compositeScore ⟨"neutral", 9/10, 0⟩ 0 < compositeScore ⟨"happy", 9/10, 0⟩ 0)
  ∧ ((0:ℚ) < 1 ∧
      compositeScore ⟨"happy", 1, 0 - EMOTION_WINDOW_SIZE⟩ 0 <
        compositeScore ⟨"happy", 1, 0⟩ 0) := by
  refine ⟨⟨le_refl _, ?_, ?_⟩, ?_, ?_⟩
  · norm_num [EMOTION_WINDOW_SIZE]
  · exact composite_contribution_formula.2.2.1 (9/10) 0 0 (le_refl _)
      (by norm_num [EMOTION_WINDOW_SIZE])
  · norm_num
  · exact composite_contribution_formula.2.2.2 "happy" 1 0 (by norm_num)

theorem demoFinalStep_none (scene : Scene) (st : EmoState) (e : ℚ)
    (h : scene.finalEmotion = none) : demoFinalStep scene st e = (scene, st) := by
  unfold demoFinalStep
  rw [h]

theorem demoTransitionStep_fired (scene : Scene) (st : EmoState) (e : ℚ)
    (h1 : scene.transitioned = true) : demoTransitionStep scene st e = (scene, st) := by
  unfold demoTransitionStep
  cases hto : scene.transitionTo with
  | none => rfl
  | some target => simp [h1]

theorem updateDemoScene_fired_noop (scene : Scene) (st : EmoState) (e : ℚ)
    (h1 : scene.transitioned = true) (h2 : scene.finalEmotion = none) :
    updateDemoScene true scene st e = (scene, st) := by
  unfold updateDemoScene
  rw [if_neg (by simp), demoTransitionStep_fired scene st e h1]
  exact demoFinalStep_none scene st e h2

/-- Claim C6: in demo mode, a scene whose `transitionTo` equals the active
emotion fires a same-label transition once its delay elapses: the emotion is
unchanged, intensity becomes `0.9`, cognitive load rises by `0.15` capped at
`0.95`, engagement falls by `0.1` floored at `0.3`, attention falls by `0.1`
floored at `0.4`, the one-shot flag is set, and any later tick of the scene
leaves scene and state untouched. -/
theorem demo_same_label_transition (scene : Scene) (st : EmoState) (e1 : ℚ)
    (hsame : scene.transitionTo = some st.currentEmotion)
    (hflag : scene.transitioned = false)
    (hdelay : scene.transitionDelay ≤ e1)
    (hfin : scene.finalEmotion = none) :
    (updateDemoScene true scene st e1).2.currentEmotion = st.currentEmotion
  ∧ (updateDemoScene true scene st e1).2.emotionIntensity = 9/10
  ∧ (updateDemoScene true scene st e1).2.cognitiveLoad =
      min (st.cognitiveLoad + 3/20) (19/20)
  ∧ (updateDemoScene true scene st e1).2.engagementScore =
      max (st.engagementScore - 1/10) (3/10)
  ∧ (updateDemoScene true scene st e1).2.attentionScore =
      max (st.attentionScore - 1/10) (2/5)
  ∧ (updateDemoScene true scene st e1).1.transitioned = true
  ∧ ∀ e2 : ℚ,
      updateDemoScene true (updateDemoScene true scene st e1).1
          (updateDemoScene true scene st e1).2 e2 =
        ((updateDemoScene true scene st e1).1, (updateDemoScene true scene st e1).2) := by
  have htr : demoTransitionStep scene st e1 =
      ({ scene with transitioned := true },
       { st with emotionIntensity := 9/10,
                 cognitiveLoad := min (st.cognitiveLoad + 3/20) (19/20),
                 engagementScore := max (st.engagementScore - 1/10) (3/10),
                 attentionScore := max (st.attentionScore - 1/10) (2/5) }) := by
    unfold demoTransitionStep
    rw [hsame]
    simp [hflag, hdelay]
  have hstep : updateDemoScene true scene st e1 =
      ({ scene with transitioned := true },
       { st with emotionIntensity := 9/10,
                 cognitiveLoad := min (st.cognitiveLoad + 3/20) (19/20),
                 engagementScore := max (st.engagementScore - 1/10) (3/10),
                 attentionScore := max (st.attentionScore - 1/10) (2/5) }) := by
    unfold updateDemoScene
    rw [if_neg (by simp), htr]
    exact demoFinalStep_none _ _ _ (by simp [hfin])
  rw [hstep]
  refine ⟨rfl, rfl, rfl, rfl, rfl, rfl, ?_⟩
  intro e2
  exact updateDemoScene_fired_noop _ _ e2 rfl hfin

theorem demo_same_label_transition_witness :
    ((⟨some "confused", 8000, false, none, 0, false⟩ : Scene).transitionTo =
        some (⟨"confused", 1/2, 2/5, 1/2, 4/5⟩ : EmoState).currentEmotion)
  ∧ (updateDemoScene true ⟨some "confused", 8000, false, none, 0, false⟩
        ⟨"confused", 1/2, 2/5, 1/2, 4/5⟩ 8000).2.cognitiveLoad =
      min ((4:ℚ)/5 + 3/20) (19/20) := by
  refine ⟨rfl, ?_⟩
  exact (demo_same_label_transition ⟨some "confused", 8000, false, none, 0, false⟩
    ⟨"confused", 1/2, 2/5, 1/2, 4/5⟩ 8000 rfl rfl (le_refl _) rfl).2.2.1

theorem triggerRandom_noop (st : EmoState) (buffer : List EmotionEntry)
    (r r1 r2 r3 now : ℚ)
    (heq : pickEmotion (transitionProbabilities st.currentEmotion) r st.currentEmotion =
      st.currentEmotion) :
    triggerRandomStateChange false false st buffer r r1 r2 r3 now = (st, buffer) := by
  unfold triggerRandomStateChange
  simp [heq]

theorem triggerRandom_change (st : EmoState) (buffer : List EmotionEntry)
    (r r1 r2 r3 now : ℚ)
    (hne : pickEmotion (transitionProbabilities st.currentEmotion) r st.currentEmotion ≠
      st.currentEmotion) :
    triggerRandomStateChange false false st buffer r r1 r2 r3 now =
      (updateCognitiveMetricsForEmotion
          (pickEmotion (transitionProbabilities st.currentEmotion) r st.currentEmotion)
          r1 r2 r3
          { st with
              currentEmotion :=
                pickEmotion (transitionProbabilities st.currentEmotion) r st.currentEmotion,
              emotionIntensity := 9/10 },
       addEmotionToBuffer buffer
         (pickEmotion (transitionProbabilities st.currentEmotion) r st.currentEmotion)
         75 now) := by
  unfold triggerRandomStateChange
  simp [hne]

theorem autonomous_change_effects (st : EmoState) (buffer : List EmotionEntry)
    (r r1 r2 r3 now : ℚ) :
    let newE := pickEmotion (transitionProbabilities st.currentEmotion) r st.currentEmotion
    (newE = st.currentEmotion →
        triggerRandomStateChange false false st buffer r r1 r2 r3 now = (st, buffer))
  ∧ (newE ≠ st.currentEmotion →
      triggerRandomStateChange false false st buffer r r1 r2 r3 now =
        (updateCognitiveMetricsForEmotion newE r1 r2 r3
            { st with currentEmotion := newE, emotionIntensity := 9/10 },
         addEmotionToBuffer buffer newE 75 now)
    ∧ (isNeutralName newE = false →
        (⟨newE, 3/4, now⟩ : EmotionEntry) ∈
          (triggerRandomStateChange false false st buffer r r1 r2 r3 now).2)
    ∧ (isNeutralName newE = true →
        (triggerRandomStateChange false false st buffer r r1 r2 r3 now).2 = buffer)) := by
  intro newE
  constructor
  · intro heq
    exact triggerRandom_noop st buffer r r1 r2 r3 now heq
  · intro hne
    have hstep := triggerRandom_change st buffer r r1 r2 r3 now hne
    refine ⟨hstep, ?_, ?_⟩
    · intro hnn
      rw [hstep]
      show (⟨newE, 3/4, now⟩ : EmotionEntry) ∈ addEmotionToBuffer buffer newE 75 now
      unfold addEmotionToBuffer
      rw [if_neg (by simp [hnn])]
      refine mem_cleanEmotionBuffer.mpr ⟨?_, ?_⟩
      · refine List.mem_append_right _ (List.mem_singleton.mpr ?_)
        norm_num
      · exact sub_window_le now
    · intro hnn
      rw [hstep]
      show addEmotionToBuffer buffer newE 75 now = buffer
      unfold addEmotionToBuffer
      rw [if_pos ⟨hnn, by norm_num⟩]

theorem autonomous_change_effects_witness :
    pickEmotion (transitionProbabilities "happy") (1/5) "happy" = "confused" ∧
    (⟨"confused", 3/4, 0⟩ : EmotionEntry) ∈
      (triggerRandomStateChange false false ⟨"happy", 1/2, 7/10, 7/10, 1/2⟩
        [] (1/5) 0 0 0 0).2 := by
  have hpick : pickEmotion (transitionProbabilities "happy") (1/5) "happy" = "confused" := by
    norm_num [pickEmotion, pickEmotionGo, transitionProbabilities]
  refine ⟨hpick, ?_⟩
  have h := (autonomous_change_effects ⟨"happy", 1/2, 7/10, 7/10, 1/2⟩ [] (1/5) 0 0 0 0).2
  rw [hpick] at h
  exact (h (by decide)).2.1 (by decide)

theorem autonomous_neutral_outcome_not_buffered :
    (triggerRandomStateChange false false ⟨"happy", 1/2, 7/10, 7/10, 1/2⟩
        [] (1/10) 0 0 0 0).2 = []
  ∧ (triggerRandomStateChange false false ⟨"happy", 1/2, 7/10, 7/10, 1/2⟩
        [] (1/10) 0 0 0 0).1.currentEmotion = "neutral"
  ∧ "neutral" ≠ "happy" := by
  have hpick : pickEmotion (transitionProbabilities "happy") (1/10) "happy" = "neutral" := by
    norm_num [pickEmotion, pickEmotionGo, transitionProbabilities]
  have hne : pickEmotion (transitionProbabilities
      (⟨"happy", 1/2, 7/10, 7/10, 1/2⟩ : EmoState).currentEmotion) (1/10)
      (⟨"happy", 1/2, 7/10, 7/10, 1/2⟩ : EmoState).currentEmotion ≠
      (⟨"happy", 1/2, 7/10, 7/10, 1/2⟩ : EmoState).currentEmotion := by
    show pickEmotion (transitionProbabilities "happy") (1/10) "happy" ≠ "happy"
    rw [hpick]
    decide
  have hstep := triggerRandom_change ⟨"happy", 1/2, 7/10, 7/10, 1/2⟩ [] (1/10) 0 0 0 0 hne
  have hpick2 : pickEmotion (transitionProbabilities
      (⟨"happy", 1/2, 7/10, 7/10, 1/2⟩ : EmoState).currentEmotion) (1/10)
      (⟨"happy", 1/2, 7/10, 7/10, 1/2⟩ : EmoState).currentEmotion = "neutral" := hpick
  rw [hpick2] at hstep
  have hadd : addEmotionToBuffer [] "neutral" 75 0 = [] := by
    unfold addEmotionToBuffer
    rw [if_pos ⟨isNeutralName_neutral, by norm_num⟩]
  rw [hstep]
  refine ⟨?_, ?_, by decide⟩ <;> simp [hadd, updateCognitiveMetricsForEmotion]

theorem lookup_mem_or_zero (scores : List (String × ℚ)) (l : String) :
    (l, lookupScore scores l) ∈ scores ∨ lookupScore scores l = 0 := by
  induction scores with
  | nil => right; rfl
  | cons p rest ih =>
      obtain ⟨k, v⟩ := p
      by_cases h : k = l
      · subst h
        left
        simp [lookupScore]
      · rcases ih with hm | hz
        · left
          rw [show lookupScore ((k, v) :: rest) l = lookupScore rest l by simp [lookupScore, h]]
          exact List.mem_cons_of_mem _ hm
        · right
          simp [lookupScore, h, hz]

theorem argmax_foldl_ge (scores : List (String × ℚ)) :
    ∀ init : String × ℚ,
      init.2 ≤ (scores.foldl (fun best p => if best.2 < p.2 then p else best) init).2 ∧
      ∀ p ∈ scores,
        p.2 ≤ (scores.foldl (fun best p => if best.2 < p.2 then p else best) init).2 := by
  induction scores with
  | nil =>
      intro init
      exact ⟨le_refl _, by simp⟩
  | cons q rest ih =>
      intro init
      rw [List.foldl_cons]
      have h1 : init.2 ≤ (if init.2 < q.2 then q else init).2 := by
        split_ifs with h
        · exact le_of_lt h
        · exact le_refl _
      have h2 : q.2 ≤ (if init.2 < q.2 then q else init).2 := by
        split_ifs with h
        · exact le_refl _
        · exact le_of_not_lt h
      obtain ⟨ha, hb⟩ := ih (if init.2 < q.2 then q else init)
      refine ⟨le_trans h1 ha, ?_⟩
      intro p hp
      rcases List.mem_cons.mp hp with rfl | hp2
      · exact le_trans h2 ha
      · exact hb p hp2

theorem argmax_foldl_mem (scores : List (String × ℚ)) :
    ∀ init : String × ℚ,
      scores.foldl (fun best p => if best.2 < p.2 then p else best) init = init ∨
      scores.foldl (fun best p => if best.2 < p.2 then p else best) init ∈ scores := by
  induction scores with
  | nil =>
      intro init
      left
      rfl
  | cons q rest ih =>
      intro init
      rw [List.foldl_cons]
      rcases ih (if init.2 < q.2 then q else init) with h | h
      · rw [h]
        split_ifs with hc
        · right
          exact List.mem_cons_self _ _
        · left
          rfl
      · right
        exact List.mem_cons_of_mem _ h

theorem keys_addScore (scores : List (String × ℚ)) (em : String) (s : ℚ) :
    (addScore scores em s).map Prod.fst =
      if em ∈ scores.map Prod.fst then scores.map Prod.fst
      else scores.map Prod.fst ++ [em] := by
  induction scores with
  | nil => simp [addScore]
  | cons p rest ih =>
      obtain ⟨k, v⟩ := p
      by_cases hk : k = em
      · subst hk
        simp [addScore]
      · simp only [addScore, if_neg hk, List.map_cons]
        rw [ih]
        by_cases hm : em ∈ rest.map Prod.fst
        · simp [hm, Ne.symm hk]
        · simp [hm, Ne.symm hk]

theorem nodup_keys_addScore (scores : List (String × ℚ)) (em : String) (s : ℚ)
    (h : (scores.map Prod.fst).Nodup) :
    ((addScore scores em s).map Prod.fst).Nodup := by
  rw [keys_addScore]
  split_ifs with hm
  · exact h
  · simp [List.nodup_append, h, hm]

theorem nodup_keys_scoreFold (now : ℚ) (entries : List EmotionEntry) :
    ∀ acc : List (String × ℚ), (acc.map Prod.fst).Nodup →
      (((entries.foldl
          (fun sc e => addScore sc e.emotion (compositeScore e now)) acc)).map Prod.fst).Nodup := by
  induction entries with
  | nil =>
      intro acc h
      exact h
  | cons e rest ih =>
      intro acc h
      rw [List.foldl_cons]
      exact ih _ (nodup_keys_addScore _ _ _ h)

theorem lookup_of_mem_nodup (scores : List (String × ℚ)) (k : String) (v : ℚ)
    (hnd : (scores.map Prod.fst).Nodup) (hm : (k, v) ∈ scores) :
    lookupScore scores k = v := by
  induction scores with
  | nil => cases hm
  | cons p rest ih =>
      obtain ⟨q, w⟩ := p
      rcases List.mem_cons.mp hm with heq | hmem
      · obtain ⟨rfl, rfl⟩ := Prod.mk.injEq _ _ _ _ |>.mp heq.symm
        simp [lookupScore]
      · by_cases hq : q = k
        · exfalso
          subst hq
          have hk : q ∈ rest.map Prod.fst := by
            exact List.mem_map.mpr ⟨(q, v), hmem, rfl⟩
          simp only [List.map_cons, List.nodup_cons] at hnd
          exact hnd.1 hk
        · rw [show lookupScore ((q, w) :: rest) k = lookupScore rest k by
            simp [lookupScore, hq]]
          simp only [List.map_cons, List.nodup_cons] at hnd
          exact ih hnd.2 hmem

theorem compositeScore_nonneg (e : EmotionEntry) (now : ℚ)
    (hc : 0 ≤ e.confidence) (ht : now - EMOTION_WINDOW_SIZE ≤ e.timestamp) :
    0 ≤ compositeScore e now := by
  have hage : now - e.timestamp ≤ 5000 := by
    simp only [EMOTION_WINDOW_SIZE] at ht
    linarith
  have hdiv : (now - e.timestamp) / 5000 ≤ 1 := by linarith
  have hf : (1 : ℚ) ≤ 1 + 1/20 * (1 - (now - e.timestamp) / 5000) := by linarith
  simp only [compositeScore, RECENCY_WEIGHT, EMOTION_WINDOW_SIZE]
  split_ifs <;> nlinarith

theorem sumLabelScore_nonneg (buffer : List EmotionEntry) (now : ℚ) (l : String)
    (h : ∀ e ∈ buffer, 0 ≤ compositeScore e now) :
    0 ≤ sumLabelScore buffer now l := by
  unfold sumLabelScore
  apply List.sum_nonneg
  intro x hx
  rcases List.mem_map.mp hx with ⟨e, he, rfl⟩
  split_ifs
  · exact h e he
  · exact le_refl 0

/-- Claim C1: the on-demand snapshot invokes the composite scorer fresh — its
emotion equals the winner of `selectWinningEmotion`, it does not depend on the
live `currentEmotion` global, and (for any buffer of in-range confidences) the
label it returns maximizes the summed composite score over the cleaned
window. -/
theorem snapshot_uses_composite_scorer (buffer : List EmotionEntry) (now : ℚ)
    (ce : String) (eng att cl : ℚ)
    (hconf : ∀ e ∈ buffer, 0 ≤ e.confidence) :
    (captureBiometricSnapshot buffer now ce eng att cl).emotionName =
      (selectWinningEmotion buffer now).emotion
  ∧ (∀ ce2 : String,
      captureBiometricSnapshot buffer now ce eng att cl =
        captureBiometricSnapshot buffer now ce2 eng att cl)
  ∧ ∀ label : String,
      sumLabelScore (cleanEmotionBuffer buffer now) now label ≤
        sumLabelScore (cleanEmotionBuffer buffer now) now
          (captureBiometricSnapshot buffer now ce eng att cl).emotionName := by
  refine ⟨rfl, fun ce2 => rfl, ?_⟩
  intro label
  have hname : (captureBiometricSnapshot buffer now ce eng att cl).emotionName =
      (argmaxLoop (calculateCompositeEmotionScores buffer now)).1 := rfl
  rw [hname]
  have hsnn : ∀ e ∈ cleanEmotionBuffer buffer now, 0 ≤ compositeScore e now := by
    intro e he
    rcases mem_cleanEmotionBuffer.mp he with ⟨hb, ht⟩
    exact compositeScore_nonneg e now (hconf e hb) ht
  by_cases hc : cleanEmotionBuffer buffer now = []
  · rw [hc]
    simp [sumLabelScore]
  · have hscores : calculateCompositeEmotionScores buffer now =
        (cleanEmotionBuffer buffer now).foldl
          (fun sc e => addScore sc e.emotion (compositeScore e now)) [] := by
      unfold calculateCompositeEmotionScores
      rw [if_neg hc]
    have hlk : ∀ l : String,
        lookupScore (calculateCompositeEmotionScores buffer now) l =
          sumLabelScore (cleanEmotionBuffer buffer now) now l := by
      intro l
      rw [hscores, lookupScore_scoreFold]
      simp [lookupScore]
    have hnd : ((calculateCompositeEmotionScores buffer now).map Prod.fst).Nodup := by
      rw [hscores]
      exact nodup_keys_scoreFold now _ [] (by simp)
    have hub : lookupScore (calculateCompositeEmotionScores buffer now) label ≤
        (argmaxLoop (calculateCompositeEmotionScores buffer now)).2 := by
      rcases lookup_mem_or_zero (calculateCompositeEmotionScores buffer now) label with hm | hz
      · exact (argmax_foldl_ge _ ("neutral", 0)).2 _ hm
      · rw [hz]
        exact (argmax_foldl_ge _ ("neutral", 0)).1
    have hlow : (argmaxLoop (calculateCompositeEmotionScores buffer now)).2 ≤
        sumLabelScore (cleanEmotionBuffer buffer now) now
          (argmaxLoop (calculateCompositeEmotionScores buffer now)).1 := by
      rcases argmax_foldl_mem (calculateCompositeEmotionScores buffer now) ("neutral", 0)
        with h | h
      · rw [show argmaxLoop (calculateCompositeEmotionScores buffer now) = ("neutral", 0)
          from h]
        exact sumLabelScore_nonneg _ now _ hsnn
      · have hpair : (( argmaxLoop (calculateCompositeEmotionScores buffer now)).1,
            (argmaxLoop (calculateCompositeEmotionScores buffer now)).2) ∈
            calculateCompositeEmotionScores buffer now := by
          simpa using h
        have := lookup_of_mem_nodup _ _ _ hnd hpair
        rw [← hlk]
        rw [this]
    calc sumLabelScore (cleanEmotionBuffer buffer now) now label
          = lookupScore (calculateCompositeEmotionScores buffer now) label := (hlk label).symm
        _ ≤ (argmaxLoop (calculateCompositeEmotionScores buffer now)).2 := hub
        _ ≤ _ := hlow

theorem isNeutralName_confused : isNeutralName "confused" = false := by decide

theorem snapshot_uses_composite_scorer_witness :
    (∀ e ∈ ([⟨"happy", 9/10, 1000⟩, ⟨"happy", 8/10, 2000⟩,
        ⟨"confused", 19/20, 3000⟩] : List EmotionEntry), 0 ≤ e.confidence)
  ∧ sumLabelScore (cleanEmotionBuffer [⟨"happy", 9/10, 1000⟩, ⟨"happy", 8/10, 2000⟩,
        ⟨"confused", 19/20, 3000⟩] 3000) 3000 "confused" ≤
      sumLabelScore (cleanEmotionBuffer [⟨"happy", 9/10, 1000⟩, ⟨"happy", 8/10, 2000⟩,
          ⟨"confused", 19/20, 3000⟩] 3000) 3000
        (captureBiometricSnapshot [⟨"happy", 9/10, 1000⟩, ⟨"happy", 8/10, 2000⟩,
            ⟨"confused", 19/20, 3000⟩] 3000 "confused" (7/10) (7/10) (1/2)).emotionName
  ∧ (captureBiometricSnapshot [⟨"happy", 9/10, 1000⟩, ⟨"happy", 8/10, 2000⟩,
        ⟨"confused", 19/20, 3000⟩] 3000 "confused" (7/10) (7/10) (1/2)).emotionName =
      "happy" := by
  have hconf : ∀ e ∈ ([⟨"happy", 9/10, 1000⟩, ⟨"happy", 8/10, 2000⟩,
      ⟨"confused", 19/20, 3000⟩] : List EmotionEntry), 0 ≤ e.confidence := by
    intro e he
    simp only [List.mem_cons, List.not_mem_nil, or_false] at he
    rcases he with rfl | rfl | rfl <;> norm_num
  refine ⟨hconf, ?_, ?_⟩
  · exact (snapshot_uses_composite_scorer _ 3000 "confused" (7/10) (7/10) (1/2)
      hconf).2.2 "confused"
  · norm_num [captureBiometricSnapshot, selectWinningEmotion,
      calculateCompositeEmotionScores, cleanEmotionBuffer, List.filter,
      compositeScore, RECENCY_WEIGHT, EMOTION_WINDOW_SIZE, addScore, argmaxLoop,
      isNeutralName_happy, isNeutralName_confused, List.cons_ne_nil,
      show ("happy" : String) ≠ "confused" from by decide,
      show ("confused" : String) ≠ "happy" from by decide]

theorem constrain_lb (x lo hi : ℚ) (h : lo ≤ hi) : lo ≤ constrain x lo hi :=
  le_min (le_max_right x lo) h

theorem constrain_ub (x lo hi : ℚ) : constrain x lo hi ≤ hi :=
  min_le_right _ _

theorem metricInv_updateCognitive (em : String) (r1 r2 r3 : ℚ)
    (h1 : unitDraw r1) (h2 : unitDraw r2) (h3 : unitDraw r3)
    (st : EmoState) (hinv : MetricInv st) :
    MetricInv (updateCognitiveMetricsForEmotion em r1 r2 r3 st) := by
  obtain ⟨e0, e1, a0, a1, c0, c1, i0, i1⟩ := hinv
  obtain ⟨hr1a, hr1b⟩ := h1
  obtain ⟨hr2a, hr2b⟩ := h2
  obtain ⟨hr3a, hr3b⟩ := h3
  unfold updateCognitiveMetricsForEmotion
  split_ifs
  · exact ⟨le_min (by nlinarith) (by norm_num), (min_le_right _ _).trans (by norm_num),
      le_min (by nlinarith) (by norm_num), (min_le_right _ _).trans (by norm_num),
      le_trans (by norm_num) (le_max_right _ _), max_le (by nlinarith) (by norm_num),
      i0, i1⟩
  · exact ⟨by nlinarith, by nlinarith, by nlinarith, by nlinarith,
      by nlinarith, by nlinarith, i0, i1⟩
  · exact ⟨le_trans (by norm_num) (le_max_right _ _), max_le (by nlinarith) (by norm_num),
      le_trans (by norm_num) (le_max_right _ _), max_le (by nlinarith) (by norm_num),
      le_min (by nlinarith) (by norm_num), (min_le_right _ _).trans (by norm_num),
      i0, i1⟩
  · exact ⟨le_trans (by norm_num) (le_max_right _ _), max_le (by nlinarith) (by norm_num),
      le_trans (by norm_num) (le_max_right _ _), max_le (by nlinarith) (by norm_num),
      le_min (by nlinarith) (by norm_num), (min_le_right _ _).trans (by norm_num),
      i0, i1⟩
  · exact ⟨e0, e1, a0, a1, c0, c1, i0, i1⟩

theorem metricInv_updateBioSignals (rEng : ℚ) (st : EmoState)
    (hinv : MetricInv st) : MetricInv (updateBioSignals rEng st) := by
  obtain ⟨e0, e1, a0, a1, c0, c1, i0, i1⟩ := hinv
  have hlb : (1:ℚ)/10 ≤
      constrain (st.engagementScore + rEng * (1 - emotionStability)) (1/10) (9/10) :=
    constrain_lb _ _ _ (by norm_num)
  have hub : constrain (st.engagementScore + rEng * (1 - emotionStability)) (1/10) (9/10) ≤
      9/10 := constrain_ub _ _ _
  simp only [updateBioSignals, lerp]
  split_ifs <;>
    exact ⟨by nlinarith, by nlinarith, a0, a1, c0, c1, i0, i1⟩

set_option maxHeartbeats 2000000 in
theorem metricInv_updateEmotionState (p : TickParams) (hwf : p.WF) (st : EmoState)
    (hinv : MetricInv st) : MetricInv (updateEmotionState p st) := by
  obtain ⟨e0, e1, a0, a1, c0, c1, i0, i1⟩ := hinv
  obtain ⟨hf1, hf2, hs1, hs2, hg1, hg2, hr1, hr2, he1, he2⟩ := hwf
  have hc1 : (1:ℚ)/5 ≤ constrain (st.emotionIntensity + p.rFluct) (1/5) 1 :=
    constrain_lb _ _ _ (by norm_num)
  have hc2 : constrain (st.emotionIntensity + p.rFluct) (1/5) 1 ≤ 1 := constrain_ub _ _ _
  simp only [updateEmotionState, emotionTransitionThreshold, lerp]
  split_ifs
  all_goals apply metricInv_updateBioSignals
  all_goals refine ⟨?_, ?_, ?_, ?_, ?_, ?_, ?_, ?_⟩
  all_goals first
    | assumption
    | nlinarith [hc1, hc2]

theorem metricInv_bioDecay (st : EmoState) (hinv : MetricInv st) :
    MetricInv (updateBioSignalSimulationDecay st) := by
  obtain ⟨e0, e1, a0, a1, c0, c1, i0, i1⟩ := hinv
  have h1 : (1:ℚ)/2 ≤ constrain (st.emotionIntensity * (99995/100000)) (1/2) 1 :=
    constrain_lb _ _ _ (by norm_num)
  have h2 : constrain (st.emotionIntensity * (99995/100000)) (1/2) 1 ≤ 1 :=
    constrain_ub _ _ _
  simp only [updateBioSignalSimulationDecay]
  exact ⟨e0, e1, a0, a1, c0, c1, by nlinarith, h2⟩


set_option maxHeartbeats 1000000 in
theorem metricInv_demoTransitionStep (scene : Scene) (st : EmoState) (e : ℚ)
    (hinv : MetricInv st) : MetricInv (demoTransitionStep scene st e).2 := by
  obtain ⟨e0, e1, a0, a1, c0, c1, i0, i1⟩ := hinv
  obtain ⟨tto, delay, fired, fin, fdelay, ffired⟩ := scene
  cases tto with
  | none => exact ⟨e0, e1, a0, a1, c0, c1, i0, i1⟩
  | some target =>
      simp only [demoTransitionStep, demoTransitionBioSignals]
      split_ifs <;> refine ⟨?_, ?_, ?_, ?_, ?_, ?_, ?_, ?_⟩ <;>
        first
          | assumption
          | (norm_num; done)
          | exact le_min (by nlinarith) (by norm_num)
          | exact (min_le_right _ _).trans (by norm_num)
          | exact le_trans (by norm_num) (le_max_right _ _)
          | exact max_le (by nlinarith) (by norm_num)
          | nlinarith

set_option maxHeartbeats 1000000 in
theorem metricInv_demoFinalStep (scene : Scene) (st : EmoState) (e : ℚ)
    (hinv : MetricInv st) : MetricInv (demoFinalStep scene st e).2 := by
  obtain ⟨e0, e1, a0, a1, c0, c1, i0, i1⟩ := hinv
  obtain ⟨tto, delay, fired, fin, fdelay, ffired⟩ := scene
  cases fin with
  | none => exact ⟨e0, e1, a0, a1, c0, c1, i0, i1⟩
  | some finalE =>
      simp only [demoFinalStep]
      split_ifs <;> refine ⟨?_, ?_, ?_, ?_, ?_, ?_, ?_, ?_⟩ <;>
        first
          | assumption
          | (norm_num; done)

theorem metricInv_updateDemoScene (dm : Bool) (scene : Scene) (st : EmoState)
    (e : ℚ) (hinv : MetricInv st) : MetricInv (updateDemoScene dm scene st e).2 := by
  unfold updateDemoScene
  split_ifs
  · exact hinv
  · exact metricInv_demoFinalStep _ _ _
      (metricInv_demoTransitionStep scene st e hinv)

theorem metricInv_triggerRandom (dm w : Bool) (st : EmoState)
    (buffer : List EmotionEntry) (r r1 r2 r3 now : ℚ)
    (h1 : unitDraw r1) (h2 : unitDraw r2) (h3 : unitDraw r3)
    (hinv : MetricInv st) :
    MetricInv (triggerRandomStateChange dm w st buffer r r1 r2 r3 now).1 := by
  obtain ⟨e0, e1, a0, a1, c0, c1, i0, i1⟩ := hinv
  simp only [triggerRandomStateChange]
  split_ifs
  · exact ⟨e0, e1, a0, a1, c0, c1, i0, i1⟩
  · exact ⟨e0, e1, a0, a1, c0, c1, i0, i1⟩
  · exact metricInv_updateCognitive _ r1 r2 r3 h1 h2 h3 _
      ⟨e0, e1, a0, a1, c0, c1, by norm_num, by norm_num⟩

theorem emotionMetricsMap_bounds (label : String) :
    (3/10 ≤ (emotionMetricsMap label).engagement ∧
      (emotionMetricsMap label).engagement ≤ 17/20) ∧
    (7/20 ≤ (emotionMetricsMap label).attention ∧
      (emotionMetricsMap label).attention ≤ 4/5) ∧
    (1/4 ≤ (emotionMetricsMap label).cognitiveLoad ∧
      (emotionMetricsMap label).cognitiveLoad ≤ 17/20) := by
  unfold emotionMetricsMap
  split_ifs <;> norm_num

theorem orHalf_unit (x : ℚ) (h0 : 0 ≤ x) (h1 : x ≤ 1) :
    0 ≤ orHalf x ∧ orHalf x ≤ 1 := by
  unfold orHalf
  split_ifs <;> norm_num [h0, h1]

theorem randomFactor_bounds (r : ℚ) (h : unitDraw r) :
    19/20 ≤ randomFactor r ∧ randomFactor r ≤ 21/20 := by
  obtain ⟨h0, h1⟩ := h
  unfold randomFactor
  constructor <;> nlinarith

theorem metricProduct_unit (m f : ℚ) (hm0 : (1:ℚ)/4 ≤ m) (hm1 : m ≤ 17/20)
    (hf0 : (19:ℚ)/20 ≤ f) (hf1 : f ≤ 21/20) :
    0 ≤ m * f ∧ m * f ≤ 1 := by
  constructor <;> nlinarith

theorem metricInv_forceGlobal (w : Bool) (detected : String) (conf : ℚ)
    (rf1 rf2 rf3 r1 r2 r3 now : ℚ)
    (hrf1 : unitDraw rf1) (hrf2 : unitDraw rf2) (hrf3 : unitDraw rf3)
    (h1 : unitDraw r1) (h2 : unitDraw r2) (h3 : unitDraw r3)
    (st : EmoState) (buffer : List EmotionEntry) (hinv : MetricInv st) :
    MetricInv (forceGlobalEmotionUpdate w detected conf
      rf1 rf2 rf3 r1 r2 r3 now st buffer).1 := by
  obtain ⟨e0, e1, a0, a1, c0, c1, i0, i1⟩ := hinv
  obtain ⟨⟨hme0, hme1⟩, ⟨hma0, hma1⟩, ⟨hmc0, hmc1⟩⟩ :=
    emotionMetricsMap_bounds (lowerString detected)
  obtain ⟨hf1a, hf1b⟩ := randomFactor_bounds rf1 hrf1
  obtain ⟨hf2a, hf2b⟩ := randomFactor_bounds rf2 hrf2
  obtain ⟨hf3a, hf3b⟩ := randomFactor_bounds rf3 hrf3
  obtain ⟨hp1a, hp1b⟩ := metricProduct_unit
    (emotionMetricsMap (lowerString detected)).engagement (randomFactor rf1)
    (by linarith) hme1 hf1a hf1b
  obtain ⟨hp2a, hp2b⟩ := metricProduct_unit
    (emotionMetricsMap (lowerString detected)).attention (randomFactor rf2)
    (by linarith) (by linarith) hf2a hf2b
  obtain ⟨hp3a, hp3b⟩ := metricProduct_unit
    (emotionMetricsMap (lowerString detected)).cognitiveLoad (randomFactor rf3)
    hmc0 hmc1 hf3a hf3b
  obtain ⟨ho1a, ho1b⟩ := orHalf_unit _ hp1a hp1b
  obtain ⟨ho2a, ho2b⟩ := orHalf_unit _ hp2a hp2b
  obtain ⟨ho3a, ho3b⟩ := orHalf_unit _ hp3a hp3b
  simp only [forceGlobalEmotionUpdate]
  split_ifs
  · exact ⟨e0, e1, a0, a1, c0, c1, i0, i1⟩
  · exact metricInv_updateCognitive _ r1 r2 r3 h1 h2 h3 _
      ⟨ho1a, ho1b, ho2a, ho2b, ho3a, ho3b, by norm_num, by norm_num⟩

theorem metricInv_applyOp (s : EmoState × List EmotionEntry) (op : EngineOp)
    (hwf : op.WF) (hinv : MetricInv s.1) : MetricInv (applyOp s op).1 := by
  cases op with
  | tick p => exact metricInv_updateEmotionState p hwf s.1 hinv
  | demoScene dm scene e => exact metricInv_updateDemoScene dm scene s.1 e hinv
  | randomChange dm w r r1 r2 r3 now =>
      exact metricInv_triggerRandom dm w s.1 s.2 r r1 r2 r3 now
        hwf.2.1 hwf.2.2.1 hwf.2.2.2 hinv
  | metricsLookup em r1 r2 r3 =>
      exact metricInv_updateCognitive em r1 r2 r3 hwf.1 hwf.2.1 hwf.2.2 s.1 hinv
  | bioDecay => exact metricInv_bioDecay s.1 hinv
  | observationArrival w d c rf1 rf2 rf3 r1 r2 r3 now =>
      exact metricInv_forceGlobal w d c rf1 rf2 rf3 r1 r2 r3 now
        hwf.1 hwf.2.1 hwf.2.2.1 hwf.2.2.2.1 hwf.2.2.2.2.1 hwf.2.2.2.2.2 s.1 s.2 hinv

/-- Claim C9: along any sequence of tick, scene-transition, autonomous-change,
metric-lookup, intensity-decay and observation-arrival operations (each with
its random draws in range), engagement, attention and cognitive load stay in
`[0, 1]` and intensity stays in `[0.2, 1.0]` at every observation point. -/
theorem metric_clamping_invariant (ops : List EngineOp)
    (s : EmoState × List EmotionEntry)
    (hwf : ∀ op ∈ ops, op.WF) (hinv : MetricInv s.1) :
    MetricInv (applyOps s ops).1 := by
  induction ops generalizing s with
  | nil => exact hinv
  | cons op rest ih =>
      have h1 := metricInv_applyOp s op (hwf op (List.mem_cons_self _ _)) hinv
      have h2 := ih (applyOp s op) (fun o ho => hwf o (List.mem_cons_of_mem _ ho)) h1
      simpa [applyOps, List.foldl_cons] using h2

theorem metric_clamping_invariant_witness :
    (∀ op ∈ ([EngineOp.bioDecay,
        EngineOp.tick ⟨true, false, "happy", 1/2, 0, 0, 0, false, false, false,
          false, false, false, false, false, 0, 0⟩,
        EngineOp.demoScene true ⟨some "happy", 100, false, none, 0, false⟩ 200,
        EngineOp.metricsLookup "happy" (1/2) (1/2) (1/2),
        EngineOp.randomChange false false (1/10) (1/2) (1/2) (1/2) 0,
        EngineOp.observationArrival true "sad" (4/5) (1/2) (1/2) (1/2) (1/2)
          (1/2) (1/2) 0] : List EngineOp), op.WF)
  ∧ MetricInv (⟨"neutral", 1/2, 7/10, 7/10, 1/2⟩ : EmoState)
  ∧ MetricInv (applyOps (⟨"neutral", 1/2, 7/10, 7/10, 1/2⟩, [])
      [EngineOp.bioDecay,
        EngineOp.tick ⟨true, false, "happy", 1/2, 0, 0, 0, false, false, false,
          false, false, false, false, false, 0, 0⟩,
        EngineOp.demoScene true ⟨some "happy", 100, false, none, 0, false⟩ 200,
        EngineOp.metricsLookup "happy" (1/2) (1/2) (1/2),
        EngineOp.randomChange false false (1/10) (1/2) (1/2) (1/2) 0,
        EngineOp.observationArrival true "sad" (4/5) (1/2) (1/2) (1/2) (1/2)
          (1/2) (1/2) 0]).1 := by
  have hwf : ∀ op ∈ ([EngineOp.bioDecay,
      EngineOp.tick ⟨true, false, "happy", 1/2, 0, 0, 0, false, false, false,
        false, false, false, false, false, 0, 0⟩,
      EngineOp.demoScene true ⟨some "happy", 100, false, none, 0, false⟩ 200,
      EngineOp.metricsLookup "happy" (1/2) (1/2) (1/2),
      EngineOp.randomChange false false (1/10) (1/2) (1/2) (1/2) 0,
      EngineOp.observationArrival true "sad" (4/5) (1/2) (1/2) (1/2) (1/2)
        (1/2) (1/2) 0] : List EngineOp), op.WF := by
    intro op hop
    simp only [List.mem_cons, List.not_mem_nil, or_false] at hop
    rcases hop with rfl | rfl | rfl | rfl | rfl | rfl <;>
      norm_num [EngineOp.WF, unitDraw, TickParams.WF]
  have hinv : MetricInv (⟨"neutral", 1/2, 7/10, 7/10, 1/2⟩ : EmoState) := by
    refine ⟨?_, ?_, ?_, ?_, ?_, ?_, ?_, ?_⟩ <;> norm_num
  exact ⟨hwf, hinv, metric_clamping_invariant _ _ hwf hinv⟩

end BioSim
